import Mathlib

/-!
Verification of the UDP network relay (host/examples/network_relay.cpp).

The file embeds the relay program shallowly:

* the datagram-level behaviour of the two forwarding loops
  (server_thread, lines 130-156; client_thread, lines 158-172) as a
  state machine over the shared `_endpoint` value;
* the lock scope of `_endpoint_mutex` inside each loop body as a list of
  atomic actions;
* the control skeleton of each loop (the interruption check at the
  `while` head and the bounded `select` wait of wait_for_recv_ready,
  lines 49-63) as an iteration list;
* the constructor (lines 71-111) with the C++ stack unwinding of its
  socket members made explicit, and the destructor (lines 113-119);
* the start barrier of the constructor (condition variable
  `wait_for_thread`, lines 101-110, 132-133, 160-161) as a validity
  predicate on event traces.
-/

namespace NetworkRelay

/-- Constant `insane_mtu` (line 28): size of the receive buffer
allocated once per loop (lines 134 and 162). -/
def insane_mtu : Nat := 9000

/-- Payload bytes of one UDP datagram. -/
abbrev Bytes := List Nat

/-- A network endpoint: the (address, port) pair of asio
`ip::udp::endpoint`, with the address modelled as a number. -/
structure Endpoint where
  addr : Nat
  port : Nat
deriving DecidableEq, Repr

/-- The value of the default-constructed member `_endpoint` (line 177)
before any datagram was received on the server socket: address 0.0.0.0,
port 0. -/
def defaultEndpoint : Endpoint := ⟨0, 0⟩

/-- Bytes placed in the loop buffer by a receive call: a UDP receive
into a buffer of `insane_mtu` bytes delivers at most `insane_mtu` bytes
of the datagram (the platform truncates the rest).  The value `len`
returned by `receive_from` / `receive` is the length of this list. -/
def receivedBytes (payload : Bytes) : Bytes := payload.take insane_mtu

/-- One datagram arrival, as seen by the relay:
`serverRecv src p` is a datagram of payload `p` from source `src`
delivered on the server socket (consumed by server_thread, line 138);
`clientRecv p` is a datagram of payload `p` delivered on the connected
client socket (consumed by client_thread, line 166). -/
inductive Event
  | serverRecv (src : Endpoint) (payload : Bytes)
  | clientRecv (payload : Bytes)
deriving DecidableEq, Repr

/-- Observable state of one relay instance:
`endpoint` is the shared `_endpoint` member; `clientOut` the payloads
sent on the connected client socket (line 141), in send order;
`serverOut` the (destination, payload) pairs passed to `send_to` on the
server socket (line 168), in send order. -/
structure RelayState where
  endpoint : Endpoint
  clientOut : List Bytes
  serverOut : List (Endpoint × Bytes)
deriving DecidableEq, Repr

/-- State right after construction: `_endpoint` default constructed,
nothing sent yet. -/
def initState : RelayState := ⟨defaultEndpoint, [], []⟩

/-- Effect of processing one arrival.  A `serverRecv` iteration
(lines 136-141) stores the datagram source into `_endpoint` (written by
`receive_from` under `_endpoint_mutex`) and sends the received bytes on
the client socket.  A `clientRecv` iteration (lines 164-168) sends the
received bytes via the server socket to the current `_endpoint` value,
whatever it is — the code has no check whether a source was ever
recorded.  The mutex makes each endpoint access atomic, which justifies
the interleaving granularity of one arrival per step. -/
def step (s : RelayState) : Event → RelayState
  | .serverRecv src p =>
    { s with endpoint := src, clientOut := s.clientOut ++ [receivedBytes p] }
  | .clientRecv p =>
    { s with serverOut := s.serverOut ++ [(s.endpoint, receivedBytes p)] }

/-- Run the relay over a sequence of arrivals (the order in which the
two sockets delivered datagrams). -/
def run (s : RelayState) (es : List Event) : RelayState := es.foldl step s

/-- Source endpoint of the most recent forward-path datagram of a
trace, if any. -/
def lastForwardSource : List Event → Option Endpoint
  | [] => none
  | e :: tl =>
    match lastForwardSource tl with
    | some a => some a
    | none =>
      match e with
      | Event.serverRecv src _ => some src
      | Event.clientRecv _ => none

/-- The received bytes of the forward-path datagrams of a trace, in
delivery order. -/
def serverDatagrams : List Event → List Bytes
  | [] => []
  | Event.serverRecv _ p :: tl => receivedBytes p :: serverDatagrams tl
  | Event.clientRecv _ :: tl => serverDatagrams tl

/-- Bound on every payload a state has sent so far. -/
def boundedOutputs (s : RelayState) : Prop :=
  (∀ b ∈ s.clientOut, b.length ≤ insane_mtu) ∧
    (∀ eb ∈ s.serverOut, eb.2.length ≤ insane_mtu)

/-- The atomic actions of one loop body, in program order.
`recvFromOnServerSock` is `_server_socket->receive_from(buffer, _endpoint)`
(line 138): socket input that also writes the shared endpoint as part of
the call.  `sendToOnServerSock` is
`_server_socket->send_to(buffer, _endpoint)` (line 168): socket output
that also reads the shared endpoint as part of the call. -/
inductive LoopAct
  | acquireEndpointLock
  | releaseEndpointLock
  | recvFromOnServerSock
  | sendOnClientSock
  | recvOnClientSock
  | sendToOnServerSock
deriving DecidableEq, Repr

/-- Which actions are socket I/O calls. -/
def isSocketIo : LoopAct → Bool
  | LoopAct.recvFromOnServerSock => true
  | LoopAct.sendOnClientSock => true
  | LoopAct.recvOnClientSock => true
  | LoopAct.sendToOnServerSock => true
  | _ => false

/-- Which actions read or write the shared `_endpoint` value as part of
the call. -/
def touchesSharedEndpoint : LoopAct → Bool
  | LoopAct.recvFromOnServerSock => true
  | LoopAct.sendToOnServerSock => true
  | _ => false

/-- Body of one server_thread iteration (lines 137-141): lock
`_endpoint_mutex`, `receive_from` into the buffer with `_endpoint` as
the out parameter, unlock, then send on the client socket. -/
def serverLoopBody : List LoopAct :=
  [LoopAct.acquireEndpointLock, LoopAct.recvFromOnServerSock,
    LoopAct.releaseEndpointLock, LoopAct.sendOnClientSock]

/-- Body of one client_thread iteration (lines 165-168): receive on the
client socket, lock `_endpoint_mutex` (lock_guard), `send_to` the
current `_endpoint` via the server socket, unlock at end of scope. -/
def clientLoopBody : List LoopAct :=
  [LoopAct.recvOnClientSock, LoopAct.acquireEndpointLock,
    LoopAct.sendToOnServerSock, LoopAct.releaseEndpointLock]

/-- Whether the mutex is held when the action at position `i` of a body
runs: more acquisitions than releases among the earlier actions. -/
def lockHeldAt (body : List LoopAct) (i : Nat) : Bool :=
  decide ((body.take i).count LoopAct.releaseEndpointLock
    < (body.take i).count LoopAct.acquireEndpointLock)

/-- The socket I/O actions of a body performed while the mutex is held,
in program order. -/
def ioActsUnderLock (body : List LoopAct) : List LoopAct :=
  (body.enum.filter
    (fun p => isSocketIo p.2 && lockHeldAt body p.1)).map Prod.snd

/-- What one loop iteration observes: the value of the interruption
flag at the `while` check (lines 135 and 163), and whether
wait_for_recv_ready reported the socket readable. -/
structure LoopIter where
  interrupted : Bool
  recvReady : Bool
deriving DecidableEq, Repr

/-- Number of iterations whose body actually runs: the loop stops at
the first `while` check that sees the interruption flag, and every
iteration before that runs (performing exactly one bounded wait)
regardless of whether data was ready. -/
def loopIterationsRun : List LoopIter → Nat
  | [] => 0
  | it :: tl => if it.interrupted then 0 else loopIterationsRun tl + 1

/-- Timeout argument structure of `select` (lines 52-54). -/
structure Timeval where
  tv_sec : Nat
  tv_usec : Nat
deriving DecidableEq, Repr

/-- The timeout wait_for_recv_ready passes to `select`:
`tv.tv_sec = 0`, `tv.tv_usec = 100000` (100 ms, lines 53-54). -/
def select_timeout : Timeval := ⟨0, 100000⟩

/-- The bound, in microseconds, on one wait_for_recv_ready call. -/
def select_timeout_usec : Nat :=
  select_timeout.tv_sec * 1000000 + select_timeout.tv_usec

/-- wait_for_recv_ready returns whether `select` reported a readable
descriptor (line 62): true exactly when the return value is positive. -/
def wait_for_recv_ready (selectReturn : Int) : Bool :=
  decide (0 < selectReturn)

/-- A socket option applied by resize_buffs (lines 122-128). -/
inductive BuffOption
  | receiveBufferSize (n : Nat)
  | sendBufferSize (n : Nat)
deriving DecidableEq, Repr

/-- resize_buffs (lines 122-128): apply the receive-buffer option only
when `rx_size` is nonzero and the send-buffer option only when
`tx_size` is nonzero; a hint of 0 applies nothing and leaves the OS
default in place. -/
def resize_buffs (rx_size tx_size : Nat) : List BuffOption :=
  (if rx_size ≠ 0 then [BuffOption.receiveBufferSize rx_size] else []) ++
    (if tx_size ≠ 0 then [BuffOption.sendBufferSize tx_size] else [])

/-- One socket as constructed: whether it is open and which buffer
options were applied to it. -/
structure SocketState where
  isOpen : Bool
  options : List BuffOption
deriving DecidableEq, Repr

/-- A fully constructed relay instance, as observable by the caller:
the two sockets.  No value of this type exists on the failure path. -/
structure RelayHandles where
  serverSocket : SocketState
  clientSocket : SocketState
deriving DecidableEq, Repr

/-- Which construction stage failed: each stage of the constructor body
(lines 78-99) can throw. -/
inductive CtorError
  | serverResolveFailed
  | serverBindFailed
  | serverSetOptionFailed
  | clientResolveFailed
  | clientOpenFailed
  | clientConnectFailed
  | clientSetOptionFailed
deriving DecidableEq, Repr

/-- Environment oracle: whether each fallible stage of the constructor
succeeds (resolution results and OS call outcomes). -/
structure CtorEnv where
  serverResolveOk : Bool
  serverBindOk : Bool
  serverSetOptionOk : Bool
  clientResolveOk : Bool
  clientOpenOk : Bool
  clientConnectOk : Bool
  clientSetOptionOk : Bool
deriving DecidableEq, Repr

/-- Descriptor accounting at one point of the constructor body:
how many socket descriptors are open, and whether the `_server_socket`
and `_client_socket` members currently own one each. -/
structure Accounting where
  openFds : Nat
  serverHeld : Bool
  clientHeld : Bool
deriving DecidableEq, Repr

/-- No socket opened yet (before line 85, or after the asio socket
constructor itself failed at bind and closed its own descriptor before
rethrowing). -/
def accountNoneHeld : Accounting := ⟨0, false, false⟩

/-- Member `_server_socket` assigned and open (after line 86). -/
def accountServerHeld : Accounting := ⟨1, true, false⟩

/-- Both members assigned, both sockets open (after line 96). -/
def accountBothHeld : Accounting := ⟨2, true, true⟩

/-- Stack unwinding when the constructor body throws: the destructor of
each already-constructed `shared_ptr` member runs and closes the socket
it owns, before the exception reaches the caller. -/
def closeHeld (a : Accounting) : Accounting :=
  ⟨a.openFds - ((cond a.serverHeld 1 0) + (cond a.clientHeld 1 0)),
    false, false⟩

/-- What construction leaves behind: the result the caller observes
(an instance, or a propagated error with no instance) and the number of
socket descriptors still open once the constructor has returned or the
exception has propagated. -/
structure CtorOutcome where
  result : Except CtorError RelayHandles
  openAfter : Nat
deriving Repr

/-- The constructor body (lines 78-99), one fallible stage after the
other.  Server side (lines 80-88): resolve `server_addr:port`, construct
the server socket bound to it (the asio socket constructor opens the
descriptor and binds; when bind fails it closes the descriptor before
the exception leaves it), apply the two server buffer hints.  Client
side (lines 89-99): resolve `client_addr:port`, construct an unopened
socket, `open`, `connect`, apply the two client buffer hints.  Every
failure branch returns the error together with the descriptors left
open after `closeHeld` unwinding. -/
def udp_relay_construct (env : CtorEnv)
    (server_rx_size server_tx_size client_rx_size client_tx_size : Nat) :
    CtorOutcome :=
  if env.serverResolveOk then
    if env.serverBindOk then
      if env.serverSetOptionOk then
        if env.clientResolveOk then
          if env.clientOpenOk then
            if env.clientConnectOk then
              if env.clientSetOptionOk then
                ⟨Except.ok
                  ⟨⟨true, resize_buffs server_rx_size server_tx_size⟩,
                    ⟨true, resize_buffs client_rx_size client_tx_size⟩⟩,
                  accountBothHeld.openFds⟩
              else
                ⟨Except.error CtorError.clientSetOptionFailed,
                  (closeHeld accountBothHeld).openFds⟩
            else
              ⟨Except.error CtorError.clientConnectFailed,
                (closeHeld accountBothHeld).openFds⟩
          else
            ⟨Except.error CtorError.clientOpenFailed,
              (closeHeld accountServerHeld).openFds⟩
        else
          ⟨Except.error CtorError.clientResolveFailed,
            (closeHeld accountServerHeld).openFds⟩
      else
        ⟨Except.error CtorError.serverSetOptionFailed,
          (closeHeld accountServerHeld).openFds⟩
    else
      ⟨Except.error CtorError.serverBindFailed,
        (closeHeld accountNoneHeld).openFds⟩
  else
    ⟨Except.error CtorError.serverResolveFailed,
      (closeHeld accountNoneHeld).openFds⟩

/-- The observable actions of the destructor `~udp_relay_type`
(lines 113-119), in execution order. -/
inductive DtorAct
  | interruptAllThreads
  | joinAllThreads
  | releaseClientSock
  | releaseServerSock
deriving DecidableEq, Repr

/-- Order of the destructor: body first (line 116 `interrupt_all`,
line 117 `join_all`), then the member destructors release
`_client_socket` before `_server_socket` (reverse of the declaration
order of line 179). -/
def destructorActions : List DtorAct :=
  [DtorAct.interruptAllThreads, DtorAct.joinAllThreads,
    DtorAct.releaseClientSock, DtorAct.releaseServerSock]

/-- The events of the startup handshake (lines 101-110 of the
constructor; lines 132-133 and 160-161 of the two loop threads). -/
inductive CtorEv
  | createServerThread
  | enterServerThread
  | notifyFromServer
  | createClientThread
  | enterClientThread
  | notifyFromClient
  | ctorWait1Done
  | ctorWait2Done
  | ctorReturn
deriving DecidableEq, Repr

/-- The notify events: one per spawned thread (lines 133 and 161). -/
def isReadyNotify : CtorEv → Bool
  | CtorEv.notifyFromServer => true
  | CtorEv.notifyFromClient => true
  | _ => false

/-- In trace `tr`, if `b` occurs then `a` occurs earlier. -/
def precedesIfPresent (tr : List CtorEv) (a b : CtorEv) : Prop :=
  b ∈ tr → a ∈ tr ∧ tr.indexOf a < tr.indexOf b

/-- Number of notify events among the first `i` events of a trace. -/
def notifiesBefore (tr : List CtorEv) (i : Nat) : Nat :=
  ((tr.take i).filter isReadyNotify).length

/-- A possible execution of the startup handshake under the semantics
the code actually relies on: bare `wait_for_thread.wait(lock)` calls
with no predicate loop (lines 106 and 109).  `boost::condition::wait`
without a predicate may return spuriously, so a completed wait is NOT
required to have consumed any notify call; the trace is constrained
only by distinctness of events and by program order within the
constructor (spawn server thread, first wait, spawn client thread,
second wait, return) and within each spawned thread (spawned, enters,
notifies). -/
def CtorTraceWithSpuriousWakeups (tr : List CtorEv) : Prop :=
  tr.Nodup ∧
  precedesIfPresent tr CtorEv.createServerThread CtorEv.ctorWait1Done ∧
  precedesIfPresent tr CtorEv.ctorWait1Done CtorEv.createClientThread ∧
  precedesIfPresent tr CtorEv.createClientThread CtorEv.ctorWait2Done ∧
  precedesIfPresent tr CtorEv.ctorWait2Done CtorEv.ctorReturn ∧
  precedesIfPresent tr CtorEv.createServerThread CtorEv.enterServerThread ∧
  precedesIfPresent tr CtorEv.enterServerThread CtorEv.notifyFromServer ∧
  precedesIfPresent tr CtorEv.createClientThread CtorEv.enterClientThread ∧
  precedesIfPresent tr CtorEv.enterClientThread CtorEv.notifyFromClient

/-- Strengthening of `CtorTraceWithSpuriousWakeups` in which no wait
completes spuriously: each completed condition wait was triggered by
its own earlier notify call — one `notify_one` wakes at most one wait,
so two completed waits need two notify calls.  This is the behaviour
the code intends (comments at lines 103, 106 and 109: wait for the
thread to spin up) but does not enforce, since a bare predicate-less
wait may also return without any notify. -/
def ValidCtorTrace (tr : List CtorEv) : Prop :=
  tr.Nodup ∧
  precedesIfPresent tr CtorEv.createServerThread CtorEv.ctorWait1Done ∧
  precedesIfPresent tr CtorEv.ctorWait1Done CtorEv.createClientThread ∧
  precedesIfPresent tr CtorEv.createClientThread CtorEv.ctorWait2Done ∧
  precedesIfPresent tr CtorEv.ctorWait2Done CtorEv.ctorReturn ∧
  precedesIfPresent tr CtorEv.createServerThread CtorEv.enterServerThread ∧
  precedesIfPresent tr CtorEv.enterServerThread CtorEv.notifyFromServer ∧
  precedesIfPresent tr CtorEv.createClientThread CtorEv.enterClientThread ∧
  precedesIfPresent tr CtorEv.enterClientThread CtorEv.notifyFromClient ∧
  (CtorEv.ctorWait1Done ∈ tr →
    1 ≤ notifiesBefore tr (tr.indexOf CtorEv.ctorWait1Done)) ∧
  (CtorEv.ctorWait2Done ∈ tr →
    2 ≤ notifiesBefore tr (tr.indexOf CtorEv.ctorWait2Done))

/-- Environment in which every construction stage succeeds. -/
def envAllOk : CtorEnv := ⟨true, true, true, true, true, true, true⟩

/-- Environment in which the client `connect` call fails. -/
def envConnectFail : CtorEnv := ⟨true, true, true, true, true, false, true⟩

/-- Handles produced by a fully successful construction with hints
(0, 8, 9, 0). -/
def handlesAllOk : RelayHandles :=
  ⟨⟨true, resize_buffs 0 8⟩, ⟨true, resize_buffs 9 0⟩⟩

/-- An interleaving of the startup handshake in which the constructor
returns: server thread spawned, enters, notifies; first wait completes;
client thread spawned, enters, notifies; second wait completes;
constructor returns. -/
def ctorTraceSequential : List CtorEv :=
  [CtorEv.createServerThread, CtorEv.enterServerThread,
    CtorEv.notifyFromServer, CtorEv.ctorWait1Done,
    CtorEv.createClientThread, CtorEv.enterClientThread,
    CtorEv.notifyFromClient, CtorEv.ctorWait2Done, CtorEv.ctorReturn]

/-- A startup execution in which both bare waits return spuriously
before the spawned threads were ever scheduled: the constructor spawns
the server thread, its wait completes with no notify, it spawns the
client thread, its second wait again completes with no notify, and it
returns — no enter or notify event has occurred. -/
def spuriousWakeupTrace : List CtorEv :=
  [CtorEv.createServerThread, CtorEv.ctorWait1Done,
    CtorEv.createClientThread, CtorEv.ctorWait2Done, CtorEv.ctorReturn]

/-! Helper lemmas. -/

lemma run_nil (s : RelayState) : run s [] = s := rfl

lemma run_cons (s : RelayState) (e : Event) (es : List Event) :
    run s (e :: es) = run (step s e) es := rfl

lemma run_append (s : RelayState) (es : List Event) (e : Event) :
    run s (es ++ [e]) = step (run s es) e := by
  simp [run, List.foldl_append]

/-- The shared endpoint after a run is the source of the most recent
forward-path datagram, or the initial value when there was none. -/
lemma run_endpoint (es : List Event) :
    ∀ s : RelayState,
      (run s es).endpoint = (lastForwardSource es).getD s.endpoint := by
  induction es with
  | nil => intro s; rfl
  | cons e tl ih =>
    intro s
    rw [run_cons, ih]
    cases h : lastForwardSource tl with
    | some a => simp [lastForwardSource, h]
    | none => cases e <;> simp [lastForwardSource, h, step]

/-- The client-socket output of a run is the list of received bytes of
the forward-path datagrams, appended in delivery order. -/
lemma run_clientOut (es : List Event) :
    ∀ s : RelayState,
      (run s es).clientOut = s.clientOut ++ serverDatagrams es := by
  induction es with
  | nil => intro s; simp [run_nil, serverDatagrams]
  | cons e tl ih =>
    intro s
    rw [run_cons, ih]
    cases e <;> simp [step, serverDatagrams]

lemma receivedBytes_length (p : Bytes) :
    (receivedBytes p).length ≤ insane_mtu := by
  simp [receivedBytes]

lemma step_boundedOutputs {s : RelayState} (e : Event)
    (h : boundedOutputs s) : boundedOutputs (step s e) := by
  obtain ⟨hc, hs⟩ := h
  cases e with
  | serverRecv src p =>
    refine ⟨?_, hs⟩
    intro b hb
    rcases List.mem_append.mp hb with hb | hb
    · exact hc b hb
    · rcases List.mem_singleton.mp hb with rfl
      exact receivedBytes_length p
  | clientRecv p =>
    refine ⟨hc, ?_⟩
    intro eb heb
    rcases List.mem_append.mp heb with heb | heb
    · exact hs eb heb
    · rcases List.mem_singleton.mp heb with rfl
      exact receivedBytes_length p

lemma run_boundedOutputs (es : List Event) :
    ∀ s : RelayState, boundedOutputs s → boundedOutputs (run s es) := by
  induction es with
  | nil => intro s h; exact h
  | cons e tl ih =>
    intro s h
    rw [run_cons]
    exact ih _ (step_boundedOutputs e h)

lemma initState_boundedOutputs : boundedOutputs initState := by
  constructor <;> intro b hb <;> simp [initState] at hb

/-- If the interruption flag is set at every `while` check from
position `k` on, at most `k` iteration bodies run — in particular no
bounded wait starts after the flag is observable, so the loop exits
after at most the one wait already in flight. -/
lemma loopIterationsRun_le (its : List LoopIter) :
    ∀ k : Nat,
      (∀ j, ∀ h : j < its.length, k ≤ j →
        (its.get ⟨j, h⟩).interrupted = true) →
      loopIterationsRun its ≤ k := by
  induction its with
  | nil => intro k _; exact Nat.zero_le k
  | cons it tl ih =>
    intro k hk
    by_cases hi : it.interrupted
    · simp [loopIterationsRun, hi]
    · cases k with
      | zero =>
        have h0 : it.interrupted = true :=
          hk 0 (Nat.succ_pos tl.length) (Nat.le_refl 0)
        exact absurd h0 hi
      | succ k =>
        have htl : ∀ j, ∀ h : j < tl.length, k ≤ j →
            (tl.get ⟨j, h⟩).interrupted = true := by
          intro j h hj
          have := hk (j + 1) (Nat.succ_lt_succ h) (Nat.succ_le_succ hj)
          simpa using this
        have := ih k htl
        simp only [loopIterationsRun, hi, if_false, Bool.false_eq_true]
        omega

lemma mem_and_indexOf_lt_of_mem_take {x : CtorEv} :
    ∀ (tr : List CtorEv) (j : Nat), x ∈ tr.take j →
      x ∈ tr ∧ tr.indexOf x < j := by
  intro tr
  induction tr with
  | nil => intro j h; simp at h
  | cons a tl ih =>
    intro j h
    cases j with
    | zero => simp at h
    | succ j =>
      rw [List.take_succ_cons] at h
      rcases List.mem_cons.mp h with rfl | h
      · exact ⟨List.mem_cons_self _ _, by simp [List.indexOf_cons_self]⟩
      · by_cases hax : a = x
        · subst hax
          exact ⟨List.mem_cons_self _ _, by simp [List.indexOf_cons_self]⟩
        · obtain ⟨hmem, hlt⟩ := ih j h
          refine ⟨List.mem_cons_of_mem a hmem, ?_⟩
          rw [List.indexOf_cons_ne _ hax]
          omega

lemma both_notifies_of_two {l : List CtorEv} (hnd : l.Nodup)
    (hall : ∀ x ∈ l, isReadyNotify x = true) (hlen : 2 ≤ l.length) :
    CtorEv.notifyFromServer ∈ l ∧ CtorEv.notifyFromClient ∈ l := by
  match l, hlen with
  | a :: b :: rest, _ =>
    have hne : a ≠ b := by
      intro hab
      subst hab
      exact (List.nodup_cons.mp hnd).1 (List.mem_cons_self _ _)
    have ha : isReadyNotify a = true := hall a (List.mem_cons_self _ _)
    have hb : isReadyNotify b = true :=
      hall b (List.mem_cons_of_mem _ (List.mem_cons_self _ _))
    cases a <;> cases b <;> simp_all [isReadyNotify]

/-! Claim theorems. -/

/-- Claim C1, counterexample.  The claim states that a reverse-path
datagram received before any forward-path datagram is skipped, with
nothing sent from the server socket.  In fact client_thread
unconditionally executes `send_to` with the current `_endpoint` value
(line 168): on the concrete trace consisting of one reverse-path
datagram and no forward-path traffic, the list of server-socket sends
is not empty. -/
theorem c1_reverse_skip_counterexample :
    (run initState [Event.clientRecv [80, 73, 78, 71]]).serverOut ≠ [] := by
  decide

/-- Claim C1, amended.  A reverse-path datagram received while no
forward-path datagram has ever been received is not skipped:
client_thread sends it via the server socket to the current
`_endpoint` value, which is still the default-constructed endpoint
0.0.0.0:0 — the code contains no recorded-source check. -/
theorem c1_reverse_before_forward_amended :
    ∀ (es : List Event) (p : Bytes),
      lastForwardSource es = none →
      (run initState (es ++ [Event.clientRecv p])).serverOut
        = (run initState es).serverOut
          ++ [(defaultEndpoint, receivedBytes p)] := by
  intro es p h
  have he : (run initState es).endpoint = defaultEndpoint := by
    rw [run_endpoint, h]; rfl
  rw [run_append]
  simp [step, he]

/-- Claim C1, witness for the amended theorem: the empty history
satisfies `lastForwardSource es = none`, and the single reverse-path
datagram is sent to the default endpoint. -/
theorem c1_reverse_before_forward_amended_witness :
    (run initState ([] ++ [Event.clientRecv [9, 9]])).serverOut
      = (run initState []).serverOut
        ++ [(defaultEndpoint, receivedBytes [9, 9])] :=
  c1_reverse_before_forward_amended [] [9, 9] rfl

/-- Claim C2, counterexample.  The claim states the endpoint mutex is
never held across any socket I/O call.  In fact both loop bodies
perform a socket I/O call while holding the lock: the set of under-lock
I/O actions is not empty for either body. -/
theorem c2_lock_never_across_io_counterexample :
    ¬(ioActsUnderLock serverLoopBody = []
      ∧ ioActsUnderLock clientLoopBody = []) := by
  decide

/-- Claim C2, amended.  `_endpoint_mutex` is held across exactly the
two endpoint-coupled socket I/O calls: server_thread holds it across
`receive_from` (which writes the shared endpoint as part of the call,
line 138) and client_thread holds it across `send_to` (which reads the
shared endpoint as part of the call, line 168).  Every I/O performed
under the lock touches the shared endpoint; the send on the client
socket (position 3 of the server body, line 141) and the receive on
the client socket (position 0 of the client body, line 166) run with
the lock free. -/
theorem c2_lock_scope_amended :
    ioActsUnderLock serverLoopBody = [LoopAct.recvFromOnServerSock] ∧
    ioActsUnderLock clientLoopBody = [LoopAct.sendToOnServerSock] ∧
    (ioActsUnderLock serverLoopBody
      ++ ioActsUnderLock clientLoopBody).all touchesSharedEndpoint = true ∧
    lockHeldAt serverLoopBody 3 = false ∧
    lockHeldAt clientLoopBody 0 = false := by
  decide

/-- Claim C3: for every sequence of datagrams delivered to the relay
(in any interleaving with reverse-path traffic), the payloads sent on
the client socket are exactly the bytes received from each server-side
datagram, unchanged and in delivery order. -/
theorem c3_forward_path_unchanged_in_order :
    ∀ es : List Event, (run initState es).clientOut = serverDatagrams es := by
  intro es
  rw [run_clientOut]
  rfl

/-- Claim C4: a reverse-path datagram received after at least one
forward-path datagram is sent, unchanged, via the server socket to the
source endpoint of the most recent forward-path datagram. -/
theorem c4_reverse_to_most_recent_source :
    ∀ (es : List Event) (src : Endpoint) (p : Bytes),
      lastForwardSource es = some src →
      (run initState (es ++ [Event.clientRecv p])).serverOut
        = (run initState es).serverOut ++ [(src, receivedBytes p)] := by
  intro es src p h
  have he : (run initState es).endpoint = src := by
    rw [run_endpoint, h]; rfl
  rw [run_append]
  simp [step, he]

/-- Claim C4, witness: after forward datagrams from sources A = 10:1000
then B = 11:2000, a reverse datagram goes to B, not A. -/
theorem c4_reverse_to_most_recent_source_witness :
    (run initState
        ([Event.serverRecv ⟨10, 1000⟩ [1], Event.serverRecv ⟨11, 2000⟩ [2]]
          ++ [Event.clientRecv [3]])).serverOut
      = (run initState
          [Event.serverRecv ⟨10, 1000⟩ [1],
            Event.serverRecv ⟨11, 2000⟩ [2]]).serverOut
        ++ [(⟨11, 2000⟩, receivedBytes [3])] :=
  c4_reverse_to_most_recent_source _ ⟨11, 2000⟩ [3] rfl

/-- Claim C5: construction fails as a whole exactly when one of its
stages fails; on failure the caller observes only the error (no
instance value exists), and stack unwinding of the socket members
leaves zero socket descriptors open before the error propagates. -/
theorem c5_construction_failure_atomic :
    ∀ (env : CtorEnv) (srx stx crx ctx : Nat),
      ((∃ e, (udp_relay_construct env srx stx crx ctx).result
          = Except.error e) ↔
        ¬(env.serverResolveOk = true ∧ env.serverBindOk = true ∧
          env.serverSetOptionOk = true ∧ env.clientResolveOk = true ∧
          env.clientOpenOk = true ∧ env.clientConnectOk = true ∧
          env.clientSetOptionOk = true)) ∧
      (∀ e, (udp_relay_construct env srx stx crx ctx).result
          = Except.error e →
        (udp_relay_construct env srx stx crx ctx).openAfter = 0) := by
  intro env srx stx crx ctx
  obtain ⟨a, b, c, d, e, f, g⟩ := env
  cases a <;> cases b <;> cases c <;> cases d <;> cases e <;> cases f <;>
    cases g <;>
    simp [udp_relay_construct, closeHeld, accountNoneHeld,
      accountServerHeld, accountBothHeld]

/-- Claim C5, witness: a failing `connect` leaves zero open
descriptors. -/
theorem c5_construction_failure_atomic_witness :
    (udp_relay_construct envConnectFail 0 0 0 0).openAfter = 0 :=
  (c5_construction_failure_atomic envConnectFail 0 0 0 0).2
    CtorError.clientConnectFailed rfl

/-- Claim C6: a successful construction applies to each socket exactly
the options of `resize_buffs` for its two hints, and a hint of 0 means
the corresponding option is absent while a nonzero hint means exactly
that option with exactly that size is present. -/
theorem c6_buffer_size_hints :
    ∀ (env : CtorEnv) (srx stx crx ctx : Nat) (h : RelayHandles),
      ((udp_relay_construct env srx stx crx ctx).result = Except.ok h →
        h.serverSocket.options = resize_buffs srx stx ∧
        h.clientSocket.options = resize_buffs crx ctx) ∧
      (∀ n,
        (BuffOption.receiveBufferSize n ∈ resize_buffs srx stx ↔
          srx ≠ 0 ∧ n = srx) ∧
        (BuffOption.sendBufferSize n ∈ resize_buffs srx stx ↔
          stx ≠ 0 ∧ n = stx)) := by
  intro env srx stx crx ctx h
  constructor
  · intro hok
    obtain ⟨a, b, c, d, e, f, g⟩ := env
    cases a <;> cases b <;> cases c <;> cases d <;> cases e <;> cases f <;>
      cases g <;> simp [udp_relay_construct] at hok <;> subst hok <;>
      constructor <;> rfl
  · intro n
    by_cases h1 : srx = 0 <;> by_cases h2 : stx = 0 <;>
      constructor <;> simp [resize_buffs, h1, h2]

/-- Claim C6, witness: a successful construction with hints
(0, 8, 9, 0) applies exactly a send-buffer option of 8 to the server
socket and a receive-buffer option of 9 to the client socket. -/
theorem c6_buffer_size_hints_witness :
    handlesAllOk.serverSocket.options = resize_buffs 0 8 ∧
    handlesAllOk.clientSocket.options = resize_buffs 9 0 :=
  (c6_buffer_size_hints envAllOk 0 8 9 0 handlesAllOk).1 rfl

/-- Claim C7: both loops check the interruption flag at every iteration
boundary, so when cancellation is visible from check `k` on, at most
`k` iteration bodies run in either loop — no bounded wait starts after
cancellation, regardless of whether any datagram ever arrives — and
each bounded wait is limited to `select_timeout_usec` = 100000
microseconds (100 ms). -/
theorem c7_cancellation_checked_every_iteration :
    ∀ (serverIts clientIts : List LoopIter) (k : Nat),
      (∀ j, ∀ h : j < serverIts.length, k ≤ j →
        (serverIts.get ⟨j, h⟩).interrupted = true) →
      (∀ j, ∀ h : j < clientIts.length, k ≤ j →
        (clientIts.get ⟨j, h⟩).interrupted = true) →
      loopIterationsRun serverIts ≤ k ∧ loopIterationsRun clientIts ≤ k ∧
        select_timeout_usec = 100000 :=
  fun sIts cIts k hs hc =>
    ⟨loopIterationsRun_le sIts k hs, loopIterationsRun_le cIts k hc, rfl⟩

/-- Claim C7, witness: with no datagram ever ready, both loops exit at
the first interrupted check after one uninterrupted iteration. -/
theorem c7_cancellation_checked_every_iteration_witness :
    loopIterationsRun [⟨false, false⟩, ⟨true, false⟩] ≤ 1 ∧
      loopIterationsRun [⟨false, false⟩, ⟨true, true⟩] ≤ 1 ∧
      select_timeout_usec = 100000 :=
  c7_cancellation_checked_every_iteration
    [⟨false, false⟩, ⟨true, false⟩] [⟨false, false⟩, ⟨true, true⟩] 1
    (by intro j h hk
        have hj : j = 1 := by simp at h; omega
        subst hj
        rfl)
    (by intro j h hk
        have hj : j = 1 := by simp at h; omega
        subst hj
        rfl)

/-- Intended behaviour of the start barrier, provable only under the
matched-notify strengthening: when no wait completes spuriously, a
constructor return is preceded by both thread entries.  The code aims
at this (its comments call the waits waiting for the thread to spin
up) but its bare waits do not enforce the strengthening. -/
lemma startBarrier_with_matched_notifies :
    ∀ tr : List CtorEv, ValidCtorTrace tr → CtorEv.ctorReturn ∈ tr →
      (CtorEv.enterServerThread ∈ tr ∧
        tr.indexOf CtorEv.enterServerThread
          < tr.indexOf CtorEv.ctorReturn) ∧
      (CtorEv.enterClientThread ∈ tr ∧
        tr.indexOf CtorEv.enterClientThread
          < tr.indexOf CtorEv.ctorReturn) := by
  intro tr hv hret
  obtain ⟨hnd, _, _, _, h4, _, h6, _, h8, _, h10⟩ := hv
  obtain ⟨hw2mem, hw2lt⟩ := h4 hret
  have hcount : 2 ≤ ((tr.take (tr.indexOf CtorEv.ctorWait2Done)).filter
      isReadyNotify).length := h10 hw2mem
  have hndt : (tr.take (tr.indexOf CtorEv.ctorWait2Done)).Nodup :=
    hnd.sublist (List.take_sublist _ tr)
  have hndf : ((tr.take (tr.indexOf CtorEv.ctorWait2Done)).filter
      isReadyNotify).Nodup := hndt.filter _
  have hall : ∀ x ∈ (tr.take (tr.indexOf CtorEv.ctorWait2Done)).filter
      isReadyNotify, isReadyNotify x = true :=
    fun x hx => (List.mem_filter.mp hx).2
  obtain ⟨hns, hnc⟩ := both_notifies_of_two hndf hall hcount
  obtain ⟨hnsmem, hnslt⟩ :=
    mem_and_indexOf_lt_of_mem_take tr _ (List.mem_of_mem_filter hns)
  obtain ⟨hncmem, hnclt⟩ :=
    mem_and_indexOf_lt_of_mem_take tr _ (List.mem_of_mem_filter hnc)
  obtain ⟨hesmem, heslt⟩ := h6 hnsmem
  obtain ⟨hecmem, heclt⟩ := h8 hncmem
  exact ⟨⟨hesmem, by omega⟩, ⟨hecmem, by omega⟩⟩

/-- Demonstration that the matched-notify strengthening is satisfiable
and the barrier lemma non-vacuous: the fully sequential interleaving
is valid, contains the constructor return, and both thread entries
occur before it. -/
lemma startBarrier_with_matched_notifies_nonvacuous :
    (CtorEv.enterServerThread ∈ ctorTraceSequential ∧
      ctorTraceSequential.indexOf CtorEv.enterServerThread
        < ctorTraceSequential.indexOf CtorEv.ctorReturn) ∧
    (CtorEv.enterClientThread ∈ ctorTraceSequential ∧
      ctorTraceSequential.indexOf CtorEv.enterClientThread
        < ctorTraceSequential.indexOf CtorEv.ctorReturn) :=
  startBarrier_with_matched_notifies ctorTraceSequential
    (by unfold ValidCtorTrace precedesIfPresent
        refine ⟨by decide, ?_, ?_, ?_, ?_, ?_, ?_, ?_, ?_, ?_, ?_⟩ <;>
          exact fun hmem => by decide)
    (by decide)

/-- Claim C8: the claim states the constructor never returns before
both ready signals have been received.  The code waits with bare
`wait_for_thread.wait(lock)` calls and no predicate loop (lines 106
and 109), and such a wait may return spuriously; on the concrete
execution `spuriousWakeupTrace`, which respects every program-order
constraint of the startup handshake, the constructor returns although
neither loop thread has entered and no ready signal was ever produced.
This contradicts the intent documented by the code itself (the
comments at lines 103, 106 and 109 describe the waits as waiting for
the threads to spin up), so the claim is right and the predicate-less
wait is the slip. -/
theorem c8_spurious_wakeup_returns_early :
    CtorTraceWithSpuriousWakeups spuriousWakeupTrace ∧
    CtorEv.ctorReturn ∈ spuriousWakeupTrace ∧
    CtorEv.enterServerThread ∉ spuriousWakeupTrace ∧
    CtorEv.enterClientThread ∉ spuriousWakeupTrace ∧
    CtorEv.notifyFromServer ∉ spuriousWakeupTrace ∧
    CtorEv.notifyFromClient ∉ spuriousWakeupTrace := by
  refine ⟨?_, by decide, by decide, by decide, by decide, by decide⟩
  unfold CtorTraceWithSpuriousWakeups precedesIfPresent
  refine ⟨by decide, ?_, ?_, ?_, ?_, ?_, ?_, ?_, ?_⟩ <;>
    first
      | exact fun hmem => absurd hmem (by decide)
      | exact fun hmem => by decide

/-- Claim C9: the destructor requests cancellation of both loops
(`interrupt_all`) strictly before joining them (`join_all`), and joins
strictly before either socket is released; and once cancellation is
requested, each loop runs no further iteration past the point where
the flag is visible — even while parked in the bounded wait, since
that wait is limited to `select_timeout_usec` = 100000 microseconds. -/
theorem c9_destroy_joins_before_release :
    (destructorActions.indexOf DtorAct.interruptAllThreads
        < destructorActions.indexOf DtorAct.joinAllThreads ∧
      destructorActions.indexOf DtorAct.joinAllThreads
        < destructorActions.indexOf DtorAct.releaseClientSock ∧
      destructorActions.indexOf DtorAct.joinAllThreads
        < destructorActions.indexOf DtorAct.releaseServerSock) ∧
    (∀ (its : List LoopIter) (k : Nat),
      (∀ j, ∀ h : j < its.length, k ≤ j →
        (its.get ⟨j, h⟩).interrupted = true) →
      loopIterationsRun its ≤ k) ∧
    select_timeout_usec = 100000 :=
  ⟨by decide, fun its k h => loopIterationsRun_le its k h, rfl⟩

/-- Claim C9, witness: a loop whose very first check sees the
interruption flag runs zero iterations. -/
theorem c9_destroy_joins_before_release_witness :
    loopIterationsRun [⟨true, false⟩] ≤ 0 :=
  c9_destroy_joins_before_release.2.1 [⟨true, false⟩] 0
    (by intro j h hk
        have hj : j = 0 := by simp at h; omega
        subst hj
        rfl)

/-- Claim C10: every payload forwarded in either direction is at most
`insane_mtu` = 9000 bytes, and a forward-path datagram of payload `p`
is forwarded as exactly the first `insane_mtu` bytes of `p` — larger
datagrams are truncated by the receive into the 9000-byte buffer. -/
theorem c10_forwarded_payloads_at_most_mtu :
    ∀ es : List Event,
      (∀ b ∈ (run initState es).clientOut, b.length ≤ insane_mtu) ∧
      (∀ eb ∈ (run initState es).serverOut, eb.2.length ≤ insane_mtu) ∧
      insane_mtu = 9000 ∧
      (∀ (src : Endpoint) (p : Bytes),
        (run initState (es ++ [Event.serverRecv src p])).clientOut
          = (run initState es).clientOut ++ [p.take insane_mtu]) := by
  intro es
  obtain ⟨hc, hs⟩ := run_boundedOutputs es initState initState_boundedOutputs
  refine ⟨hc, hs, rfl, ?_⟩
  intro src p
  rw [run_append]
  rfl

/-- Claim C10, witness: the payload forwarded for a concrete 2-byte
forward datagram is at most `insane_mtu` bytes long. -/
theorem c10_forwarded_payloads_at_most_mtu_witness :
    ([5, 6] : Bytes).length ≤ insane_mtu :=
  (c10_forwarded_payloads_at_most_mtu [Event.serverRecv ⟨1, 2⟩ [5, 6]]).1
    [5, 6] (by decide)

end NetworkRelay
